import Mathlib

/-
  Verification development for the 3d-streaming repository.

  Shallow embedding of:
  - src/receiver.py : VideoReceiver.process_3d_frame (stereo transforms)
  - src/publisher.py : SideBySideVideoTrack (construction and frame pacing),
    and the offer_handler HTTP endpoint.

  Machine arithmetic notes: Python `int(x)` truncates toward zero (pyInt below);
  Python `//` on nonnegative integers is Nat division; wall-clock times and
  frame rates are modelled as exact rationals.
-/

namespace Streaming3D

/-- Python int() conversion: truncation toward zero. -/
def pyInt (q : ℚ) : ℤ := if 0 ≤ q then Int.floor q else - Int.floor (-q)

/-- An interleaved pixel buffer: height, width, and a pixel function
    (row, column, channel) to byte value.  Mirrors the numpy ndarray of shape
    (height, width, 3) used throughout src/receiver.py. -/
structure Image where
  height : ℕ
  width : ℕ
  pix : ℕ → ℕ → ℕ → ℕ

/-- Extensional equality of images on their declared bounds (3 channels). -/
def Image.eqv (a b : Image) : Prop :=
  a.height = b.height ∧ a.width = b.width ∧
  ∀ r, r < a.height → ∀ c, c < a.width → ∀ ch, ch < 3 → a.pix r c ch = b.pix r c ch

instance (a b : Image) : Decidable (Image.eqv a b) := by
  unfold Image.eqv
  exact inferInstance

/-- The four 3D display modes of the receiver UI combobox
    (src/receiver.py line 97). -/
inductive Mode where
  | side_by_side_cross_eye
  | side_by_side_parallel
  | anaglyph_red_cyan
  | anaglyph_green_magenta
deriving DecidableEq

/-- Numerator of the source sampling coordinate for bilinear resizing with
    half-pixel centers: (i + 1/2) * srcLen / dstLen - 1/2 written as an exact
    fraction over the denominator 2 * dstLen.  Embeds the deterministic
    bilinear policy of cv2.resize used at src/receiver.py lines 251, 261,
    283, 293. -/
def srcIdxNum (dstLen srcLen i : ℕ) : ℤ :=
  ((2 * i + 1) * srcLen : ℤ) - dstLen

/-- Clamp an integer sampling index into [0, len-1] (border replication). -/
def clampIdx (len : ℕ) (z : ℤ) : ℕ := min (len - 1) (max 0 z).toNat

/-- One output pixel of a bilinear resize of img to (nw, nh): the source
    coordinate is ny / Dy (resp. nx / Dx), its fractional part ry / Dy
    (resp. rx / Dx), and the interpolated value is the floor of the exact
    rational bilinear combination, computed as one integer floor division. -/
def resizePix (img : Image) (nw nh : ℕ) (r c ch : ℕ) : ℕ :=
  let Dy : ℤ := 2 * nh
  let Dx : ℤ := 2 * nw
  let ny : ℤ := srcIdxNum nh img.height r
  let nx : ℤ := srcIdxNum nw img.width c
  let y0 : ℤ := Int.fdiv ny Dy
  let x0 : ℤ := Int.fdiv nx Dx
  let ry : ℤ := ny - Dy * y0
  let rx : ℤ := nx - Dx * x0
  let p00 : ℤ := img.pix (clampIdx img.height y0) (clampIdx img.width x0) ch
  let p01 : ℤ := img.pix (clampIdx img.height y0) (clampIdx img.width (x0 + 1)) ch
  let p10 : ℤ := img.pix (clampIdx img.height (y0 + 1)) (clampIdx img.width x0) ch
  let p11 : ℤ := img.pix (clampIdx img.height (y0 + 1)) (clampIdx img.width (x0 + 1)) ch
  (Int.fdiv ((Dy - ry) * ((Dx - rx) * p00 + rx * p01) + ry * ((Dx - rx) * p10 + rx * p11))
    (Dy * Dx)).toNat

/-- cv2.resize(img, (nw, nh)) as an Image. -/
def resize (img : Image) (nw nh : ℕ) : Image :=
  ⟨nh, nw, fun r c ch => resizePix img nw nh r c ch⟩

/-- frame[:, offset:, :] — trim offset columns from the left edge
    (src/receiver.py line 247 and line 289). -/
def cropFromLeft (frame : Image) (offset : ℕ) : Image :=
  ⟨frame.height, frame.width - offset, fun r c ch => frame.pix r (c + offset) ch⟩

/-- frame[:, :-offset, :] — trim offset columns from the right edge
    (src/receiver.py line 257 and line 279). -/
def cropFromRight (frame : Image) (offset : ℕ) : Image :=
  ⟨frame.height, frame.width - offset, fun r c ch => frame.pix r c ch⟩

/-- new_height = int((width//2) * height / (width - offset)) —
    src/receiver.py lines 249, 259, 281, 291.  Truncating division of
    nonnegative quantities is Nat division. -/
def newHeight (width height offset : ℕ) : ℕ :=
  (width / 2) * height / (width - offset)

/-- Shared layout of both side-by-side modes: start from np.zeros_like(frame),
    write leftResized into rows [y0, y0+nh) of columns [0, width/2), and
    rightResized into the same rows of columns [width/2, width), where
    y0 = (height - nh) // 2 (src/receiver.py lines 241, 253-254, 263-264,
    273, 285-286, 295-296). -/
def sideBySideCompose (frame leftResized rightResized : Image) (nh : ℕ) : Image :=
  let h := frame.height
  let w := frame.width
  let y0 := (h - nh) / 2
  ⟨h, w, fun r c ch =>
    if y0 ≤ r ∧ r < y0 + nh then
      if c < w / 2 then leftResized.pix (r - y0) c ch
      else rightResized.pix (r - y0) (c - w / 2) ch
    else 0⟩

/-- The side_by_side_cross_eye branch (src/receiver.py lines 236-266):
    left half shows the left-trimmed crop, right half the right-trimmed crop,
    both resized to (width//2, new_height) and vertically centered. -/
def crossEye (frame : Image) (offset : ℕ) : Image :=
  let nh := newHeight frame.width frame.height offset
  sideBySideCompose frame
    (resize (cropFromLeft frame offset) (frame.width / 2) nh)
    (resize (cropFromRight frame offset) (frame.width / 2) nh) nh

/-- The side_by_side_parallel branch (src/receiver.py lines 268-298):
    same as crossEye with the two crops placed in the opposite halves. -/
def parallelSBS (frame : Image) (offset : ℕ) : Image :=
  let nh := newHeight frame.width frame.height offset
  sideBySideCompose frame
    (resize (cropFromRight frame offset) (frame.width / 2) nh)
    (resize (cropFromLeft frame offset) (frame.width / 2) nh) nh

/-- cv2.cvtColor(frame, COLOR_RGB2GRAY): luminance with the standard
    weights 0.299, 0.587, 0.114 and rounding to nearest
    (src/receiver.py lines 309, 334). -/
def rgb2gray (frame : Image) (r c : ℕ) : ℕ :=
  (299 * frame.pix r c 0 + 587 * frame.pix r c 1 + 114 * frame.pix r c 2 + 500) / 1000

/-- right_shifted: np.zeros_like(gray); right_shifted[:, offset:] =
    gray[:, :-offset] when offset > 0, else the unshifted gray
    (src/receiver.py lines 319-320, 343-344). -/
def shiftedGray (frame : Image) (offset : ℕ) (r c : ℕ) : ℕ :=
  if offset = 0 then rgb2gray frame r c
  else if offset ≤ c then rgb2gray frame r (c - offset) else 0

/-- The anaglyph_red_cyan branch (src/receiver.py lines 300-324):
    channel 0 holds the gray frame, channels 1 and 2 the shifted copy. -/
def anaglyphRedCyan (frame : Image) (offset : ℕ) : Image :=
  ⟨frame.height, frame.width, fun r c ch =>
    if ch = 0 then rgb2gray frame r c else shiftedGray frame offset r c⟩

/-- The anaglyph_green_magenta branch (src/receiver.py lines 326-348):
    channel 1 holds the gray frame, channels 0 and 2 the shifted copy. -/
def anaglyphGreenMagenta (frame : Image) (offset : ℕ) : Image :=
  ⟨frame.height, frame.width, fun r c ch =>
    if ch = 1 then rgb2gray frame r c else shiftedGray frame offset r c⟩

/-- VideoReceiver.process_3d_frame (src/receiver.py lines 229-350), with the
    UI-owned mode and offset passed as explicit arguments.  The function body
    contains no validation of offset: every branch computes directly with the
    given value. -/
def process_3d_frame (frame : Image) (mode : Mode) (offset : ℕ) : Image :=
  match mode with
  | .side_by_side_cross_eye => crossEye frame offset
  | .side_by_side_parallel => parallelSBS frame offset
  | .anaglyph_red_cyan => anaglyphRedCyan frame offset
  | .anaglyph_green_magenta => anaglyphGreenMagenta frame offset

/-- Lower bound of the offset slider (src/receiver.py line 104). -/
def offsetSliderMin : ℕ := 10

/-- Upper bound of the offset slider (src/receiver.py line 104). -/
def offsetSliderMax : ℕ := 100

/-- Swap the left half (columns [0, width/2)) and the right half
    (columns [width/2, width)) of an image. -/
def swapHalves (img : Image) : Image :=
  ⟨img.height, img.width, fun r c ch =>
    if c < img.width / 2 then img.pix r (c + img.width / 2) ch
    else img.pix r (c - img.width / 2) ch⟩

/-- Exceptions raised by the publisher code paths modelled here:
    ValueError (src/publisher.py line 25 and line 171), ZeroDivisionError
    (the float division 1.0 / self.fps at line 36 when fps = 0), and the
    TypeError from cv2.cvtColor(None, ...) at line 68 when both reads fail. -/
inductive PyErr where
  | valueError (msg : String)
  | zeroDivisionError
  | typeError
deriving DecidableEq

/-- The fields of SideBySideVideoTrack set by __init__
    (src/publisher.py lines 20-41). -/
structure SideBySideVideoTrack where
  fps : ℚ
  width : ℤ
  height : ℤ
  frame_count : ℤ
  frame_duration : ℚ
  start_time : Option ℚ
  frame_index : ℕ
deriving DecidableEq

/-- SideBySideVideoTrack.__init__ (src/publisher.py lines 20-41).  The
    cv2.VideoCapture reads are abstracted into the parameters: opened is
    cap.isOpened(), and fps, w, h, count are the CAP_PROP values.  A closed
    capture raises ValueError (line 25); the unguarded float division
    1.0 / self.fps (line 36) raises ZeroDivisionError when fps = 0. -/
def SideBySideVideoTrack.init (opened : Bool) (video_path : String)
    (fps : ℚ) (w h count : ℤ) : Except PyErr SideBySideVideoTrack :=
  if ¬opened then
    .error (.valueError ("Could not open video file: " ++ video_path))
  else if fps = 0 then
    .error .zeroDivisionError
  else
    .ok ⟨fps, w, h, count, 1 / fps, none, 0⟩

/-- The frame emitted by one recv() call: the decoded pixel data, the pts and
    time_base written onto the av.VideoFrame (src/publisher.py lines 72-73),
    the index the decoder actually produced, the pacing target index, and
    whether the looping branch (lines 52-55) ran. -/
structure RecvOut (α : Type) where
  frame : α
  pts : ℤ
  time_base : ℚ
  decodedIndex : ℤ
  targetIndex : ℤ
  looped : Bool
deriving DecidableEq

/-- start_time as used by recv: the stored value, or t1 recorded on first
    pull (src/publisher.py lines 44-45). -/
def recvStart (st : SideBySideVideoTrack) (t1 : ℚ) : ℚ :=
  st.start_time.getD t1

/-- target_frame = int(current_time * self.fps)
    (src/publisher.py lines 48-49), with t2 the time.time() of line 48. -/
def recvTarget0 (st : SideBySideVideoTrack) (t1 t2 : ℚ) : ℤ :=
  pyInt ((t2 - recvStart st t1) * st.fps)

/-- Whether the looping branch runs: target_frame >= self.frame_count
    (src/publisher.py line 52). -/
def recvLooped (st : SideBySideVideoTrack) (t1 t2 : ℚ) : Bool :=
  decide (st.frame_count ≤ recvTarget0 st t1 t2)

/-- The frame index used for seeking and decoding after the looping branch
    (src/publisher.py lines 52-58). -/
def recvTarget (st : SideBySideVideoTrack) (t1 t2 : ℚ) : ℤ :=
  if recvLooped st t1 t2 then 0 else recvTarget0 st t1 t2

/-- SideBySideVideoTrack.recv (src/publisher.py lines 43-75).  The decoder is
    abstracted as read : position → Option frame (cap.set to a position
    followed by cap.read); t1, t2, t3 are the successive time.time() samples
    of lines 45, 48 and 54.  On a failed read the code seeks to 0 and reads
    again (lines 62-65); if that also fails, frame is None and line 68
    raises.  The pts is computed from target_frame regardless of which index
    was actually decoded (line 72). -/
def SideBySideVideoTrack.recv {α : Type} (st : SideBySideVideoTrack)
    (read : ℤ → Option α) (t1 t2 t3 : ℚ) :
    Except PyErr (RecvOut α × SideBySideVideoTrack) :=
  match read (recvTarget st t1 t2) with
  | some f =>
    .ok (⟨f, pyInt ((recvTarget st t1 t2 : ℚ) * st.frame_duration * 90000),
          1 / 90000, recvTarget st t1 t2, recvTarget st t1 t2, recvLooped st t1 t2⟩,
      { st with
        start_time := some (if recvLooped st t1 t2 then t3 else recvStart st t1) })
  | none =>
    match read 0 with
    | some f =>
      .ok (⟨f, pyInt ((recvTarget st t1 t2 : ℚ) * st.frame_duration * 90000),
            1 / 90000, 0, recvTarget st t1 t2, recvLooped st t1 t2⟩,
        { st with
          start_time := some (if recvLooped st t1 t2 then t3 else recvStart st t1) })
    | none => .error .typeError

/-- Structured HTTP response body: aiohttp web.Response built with a plain
    text payload, or a json.dumps of string fields
    (src/publisher.py lines 205-211 and 217). -/
inductive HttpBody where
  | plain (s : String)
  | json (fields : List (String × String))
deriving DecidableEq

/-- Whether a response body is a JSON document. -/
def HttpBody.isJson : HttpBody → Bool
  | .plain _ => false
  | .json _ => true

/-- An HTTP response: status code, content type and body.  aiohttp defaults
    content_type to text/plain when only text is given (line 217) and the
    success path sets application/json explicitly (line 206). -/
structure HttpResponse where
  status : ℕ
  contentType : String
  body : HttpBody
deriving DecidableEq

/-- The parsed JSON body of a POST /offer request, with both fields optional
    (the handler checks their presence at src/publisher.py line 170). -/
structure OfferBody where
  sdp : Option String
  type : Option String

/-- The publisher-side peer connection after a successful negotiation:
    remote description stored, local answer created and set
    (src/publisher.py lines 186-203). -/
structure PeerConn where
  remoteSdp : String
  localSdp : String
  localType : String
deriving DecidableEq

/-- The mutable publisher state touched by offer_handler: self.pc. -/
structure PublisherState where
  pc : Option PeerConn
deriving DecidableEq

/-- offer_handler (src/publisher.py lines 161-217).  The external engine
    answer generation (createAnswer) is abstracted as answerOf.  Validation
    of the body happens before any mutation of self.pc (line 170), so the
    error path leaves the state unchanged and returns
    web.Response(status=500, text=str(e)) — a plain-text body (line 217).
    The success path replaces self.pc with a fresh connection and returns a
    JSON body with the local description (lines 205-211). -/
def offer_handler (answerOf : String → String) (body : OfferBody)
    (st : PublisherState) : HttpResponse × PublisherState :=
  match body.sdp, body.type with
  | some sdp, some _ty =>
    let pc : PeerConn := ⟨sdp, answerOf sdp, "answer"⟩
    (⟨200, "application/json", .json [("sdp", pc.localSdp), ("type", pc.localType)]⟩,
     ⟨some pc⟩)
  | _, _ =>
    (⟨500, "text/plain", .plain ("Missing required SDP parameters")⟩, st)

/-- A constant white 640x480 test frame (the frame size of the concrete
    example in the spec). -/
def f640 : Image := ⟨480, 640, fun _ _ _ => 255⟩

/-- A 640x480 gradient test frame whose pixels vary with position and
    channel, so that different crops produce different outputs. -/
def grad640 : Image := ⟨480, 640, fun r c ch => (r + 2 * c + 3 * ch) % 251⟩

/-- A 20x1 gradient test frame for the side-by-side mode relation. -/
def strip20 : Image := ⟨1, 20, fun _ c ch => (c + ch) % 9⟩

/-- A 2x2 gradient test frame for the anaglyph mode relation. -/
def tiny2 : Image := ⟨2, 2, fun r c ch => 40 * r + 20 * c + 5 * ch⟩

/-
  Theorems.  General lemmas first, then one theorem per claim, each with its
  witness or counterexample.
-/

/-- pyInt agrees with the floor on nonnegative rationals. -/
theorem pyInt_eq_floor (q : ℚ) (h : 0 ≤ q) : pyInt q = Int.floor q := by
  simp [pyInt, h]

/-- Bilinear resizing of a constant image yields the constant. -/
theorem resizePix_const (img : Image) (v nw nh r c ch : ℕ)
    (hw : 0 < nw) (hh : 0 < nh)
    (hconst : ∀ r2 c2 ch2, img.pix r2 c2 ch2 = v) :
    resizePix img nw nh r c ch = v := by
  unfold resizePix
  simp only [hconst]
  have hD : (2 * (nh : ℤ)) * (2 * (nw : ℤ)) ≠ 0 := by positivity
  have hcollapse : ∀ ry rx : ℤ,
      ((2 * (nh : ℤ)) - ry) * (((2 * (nw : ℤ)) - rx) * (v : ℤ) + rx * v) +
        ry * (((2 * (nw : ℤ)) - rx) * v + rx * v) =
      (v : ℤ) * ((2 * (nh : ℤ)) * (2 * (nw : ℤ))) := by
    intro ry rx; ring
  rw [hcollapse]
  rw [Int.mul_fdiv_cancel _ hD]
  simp

/-- Characterization of a successful recv call: the emitted fields and the
    state update, for every outcome of the decoder. -/
theorem recv_ok_fields {α : Type} (st : SideBySideVideoTrack)
    (read : ℤ → Option α) (t1 t2 t3 : ℚ) (out : RecvOut α)
    (st2 : SideBySideVideoTrack)
    (hok : st.recv read t1 t2 t3 = .ok (out, st2)) :
    out.targetIndex = recvTarget st t1 t2 ∧
    out.looped = recvLooped st t1 t2 ∧
    out.pts = pyInt ((recvTarget st t1 t2 : ℚ) * st.frame_duration * 90000) ∧
    out.time_base = 1 / 90000 ∧
    st2 = { st with
      start_time := some (if recvLooped st t1 t2 then t3 else recvStart st t1) } ∧
    (read (recvTarget st t1 t2) = none → out.decodedIndex = 0) ∧
    (∀ f, read (recvTarget st t1 t2) = some f →
      out.decodedIndex = recvTarget st t1 t2 ∧ out.frame = f) := by
  unfold SideBySideVideoTrack.recv at hok
  cases h1 : read (recvTarget st t1 t2) with
  | some f =>
    rw [h1] at hok
    simp only [Except.ok.injEq, Prod.mk.injEq] at hok
    obtain ⟨hout, hst2⟩ := hok
    subst hout hst2
    simp
  | none =>
    rw [h1] at hok
    cases h2 : read 0 with
    | some f =>
      rw [h2] at hok
      simp only [Except.ok.injEq, Prod.mk.injEq] at hok
      obtain ⟨hout, hst2⟩ := hok
      subst hout hst2
      simp [h1]
    | none =>
      rw [h2] at hok
      simp at hok

/-- C6: for every input frame and offset in [10, 100], the
    anaglyph_red_cyan output and the anaglyph_green_magenta output differ
    only by swapping the red and green channels, and the blue channel is
    byte-identical between the two outputs. -/
theorem anaglyph_red_green_swap (frame : Image) (offset : ℕ)
    (hlo : 10 ≤ offset) (hhi : offset ≤ 100) (r c : ℕ)
    (hr : r < frame.height) (hc : c < frame.width) :
    (process_3d_frame frame .anaglyph_green_magenta offset).pix r c 0 =
      (process_3d_frame frame .anaglyph_red_cyan offset).pix r c 1 ∧
    (process_3d_frame frame .anaglyph_green_magenta offset).pix r c 1 =
      (process_3d_frame frame .anaglyph_red_cyan offset).pix r c 0 ∧
    (process_3d_frame frame .anaglyph_green_magenta offset).pix r c 2 =
      (process_3d_frame frame .anaglyph_red_cyan offset).pix r c 2 ∧
    (process_3d_frame frame .anaglyph_green_magenta offset).height =
      (process_3d_frame frame .anaglyph_red_cyan offset).height ∧
    (process_3d_frame frame .anaglyph_green_magenta offset).width =
      (process_3d_frame frame .anaglyph_red_cyan offset).width := by
  refine ⟨?_, ?_, ?_, rfl, rfl⟩ <;>
    simp [process_3d_frame, anaglyphGreenMagenta, anaglyphRedCyan]

/-- Witness for C6 at a concrete 2x2 frame and offset 10. -/
theorem anaglyph_red_green_swap_witness :
    (process_3d_frame tiny2 .anaglyph_green_magenta 10).pix 1 1 0 =
      (process_3d_frame tiny2 .anaglyph_red_cyan 10).pix 1 1 1 ∧
    (process_3d_frame tiny2 .anaglyph_green_magenta 10).pix 1 1 1 =
      (process_3d_frame tiny2 .anaglyph_red_cyan 10).pix 1 1 0 ∧
    (process_3d_frame tiny2 .anaglyph_green_magenta 10).pix 1 1 2 =
      (process_3d_frame tiny2 .anaglyph_red_cyan 10).pix 1 1 2 ∧
    (process_3d_frame tiny2 .anaglyph_green_magenta 10).height =
      (process_3d_frame tiny2 .anaglyph_red_cyan 10).height ∧
    (process_3d_frame tiny2 .anaglyph_green_magenta 10).width =
      (process_3d_frame tiny2 .anaglyph_red_cyan 10).width :=
  anaglyph_red_green_swap tiny2 10 (by decide) (by decide) 1 1
    (by decide) (by decide)

/-- C5: for every even-width input frame and every offset in [10, 100] for
    which the geometry is defined (offset smaller than the width, resized
    height no larger than the frame height), the side_by_side_cross_eye
    output and the side_by_side_parallel output are related by swapping the
    left half (columns [0, width/2)) and the right half
    (columns [width/2, width)); each half carries identical pixel content in
    the two modes, only its placement differs. -/
theorem crossEye_parallel_half_swap (frame : Image) (offset : ℕ)
    (hlo : 10 ≤ offset) (hhi : offset ≤ 100)
    (heven : frame.width % 2 = 0) (hltw : offset < frame.width)
    (hnh : newHeight frame.width frame.height offset ≤ frame.height) :
    Image.eqv (process_3d_frame frame .side_by_side_cross_eye offset)
      (swapHalves (process_3d_frame frame .side_by_side_parallel offset)) := by
  refine ⟨rfl, rfl, ?_⟩
  intro r hr c hc ch hch
  simp only [process_3d_frame, crossEye, parallelSBS, sideBySideCompose,
    swapHalves] at hr hc ⊢
  by_cases hcl : c < frame.width / 2
  · have hc2 : ¬(c + frame.width / 2 < frame.width / 2) := by omega
    have hc3 : c + frame.width / 2 - frame.width / 2 = c := by omega
    simp only [hcl, if_true, hc2, if_false, hc3]
  · have hc2 : c - frame.width / 2 < frame.width / 2 := by omega
    simp only [hcl, if_false, hc2, if_true]

/-- Witness for C5 at a concrete 20x1 gradient frame and offset 10. -/
theorem crossEye_parallel_half_swap_witness :
    Image.eqv (process_3d_frame strip20 .side_by_side_cross_eye 10)
      (swapHalves (process_3d_frame strip20 .side_by_side_parallel 10)) :=
  crossEye_parallel_half_swap strip20 10 (by decide) (by decide) (by decide)
    (by decide) (by decide)

/-- C4 counterexample: for the 640x480 white frame with offset 10 in
    cross-eye mode, the content occupies rows [118, 361): row 360 is content
    and row 361 is already black, so the black margin below the content is
    480 - 361 = 119 rows, not 118 as claimed; indeed margins of 118 rows
    above and below a 243-row content band cannot tile 480 rows. -/
theorem crossEye_640_bottom_margin_cex :
    newHeight 640 480 10 = 243 ∧
    (480 - newHeight 640 480 10) / 2 = 118 ∧
    (process_3d_frame f640 .side_by_side_cross_eye 10).pix 360 0 0 = 255 ∧
    (process_3d_frame f640 .side_by_side_cross_eye 10).pix 361 0 0 = 0 ∧
    480 - ((480 - newHeight 640 480 10) / 2) - newHeight 640 480 10 = 119 ∧
    118 + 243 + 118 ≠ 480 := by
  decide

set_option maxRecDepth 4096 in
/-- C4 amended: for the 640x480 white frame with offset 10 in cross-eye
    mode, the left-half crop is 630 columns wide, the resize target is
    320 x 243, the output frame is 640x480, the content band is rows
    [118, 361) (white in every column and channel), and the black margins
    are 118 rows above and 119 rows below. -/
theorem crossEye_640_layout :
    (cropFromLeft f640 10).width = 630 ∧
    newHeight 640 480 10 = 243 ∧
    (process_3d_frame f640 .side_by_side_cross_eye 10).height = 480 ∧
    (process_3d_frame f640 .side_by_side_cross_eye 10).width = 640 ∧
    (∀ r c ch, r < 118 →
      (process_3d_frame f640 .side_by_side_cross_eye 10).pix r c ch = 0) ∧
    (∀ r c ch, 361 ≤ r →
      (process_3d_frame f640 .side_by_side_cross_eye 10).pix r c ch = 0) ∧
    (∀ r c ch, 118 ≤ r → r < 361 → c < 640 → ch < 3 →
      (process_3d_frame f640 .side_by_side_cross_eye 10).pix r c ch = 255) := by
  have hnh : newHeight 640 480 10 = 243 := by decide
  refine ⟨rfl, hnh, rfl, rfl, ?_, ?_, ?_⟩
  · intro r c ch hr
    simp only [process_3d_frame, crossEye, sideBySideCompose, f640]
    rw [hnh]
    have hneg : ¬((480 - 243) / 2 ≤ r ∧ r < (480 - 243) / 2 + 243) := by omega
    rw [if_neg hneg]
  · intro r c ch hr
    simp only [process_3d_frame, crossEye, sideBySideCompose, f640]
    rw [hnh]
    have hneg : ¬((480 - 243) / 2 ≤ r ∧ r < (480 - 243) / 2 + 243) := by omega
    rw [if_neg hneg]
  · intro r c ch hr1 hr2 hc hch
    simp only [process_3d_frame, crossEye, sideBySideCompose, f640]
    rw [hnh]
    have hrow : (480 - 243) / 2 ≤ r ∧ r < (480 - 243) / 2 + 243 := by omega
    rw [if_pos hrow]
    by_cases hcl : c < 640 / 2
    · rw [if_pos hcl]
      exact resizePix_const _ 255 _ _ _ _ _ (by decide) (by decide) (fun _ _ _ => rfl)
    · rw [if_neg hcl]
      exact resizePix_const _ 255 _ _ _ _ _ (by decide) (by decide) (fun _ _ _ => rfl)

/-- Witness for C4 amended at concrete pixels: one in the top margin, one in
    the content band, one in the bottom margin. -/
theorem crossEye_640_layout_witness :
    (process_3d_frame f640 .side_by_side_cross_eye 10).pix 0 0 0 = 0 ∧
    (process_3d_frame f640 .side_by_side_cross_eye 10).pix 200 320 1 = 255 ∧
    (process_3d_frame f640 .side_by_side_cross_eye 10).pix 479 639 2 = 0 :=
  ⟨crossEye_640_layout.2.2.2.2.1 0 0 0 (by decide),
   crossEye_640_layout.2.2.2.2.2.2 200 320 1 (by decide) (by decide)
     (by decide) (by decide),
   crossEye_640_layout.2.2.2.2.2.1 479 639 2 (by decide)⟩

/-- C3 counterexample: process_3d_frame contains no validation of offset and
    raises no error: at the out-of-range offsets 5 and 150 it produces a
    full output frame of the input dimensions, and the pixel values it
    produces differ from those produced at the in-range boundary offsets 10
    and 100, so the out-of-range offsets are used as given rather than being
    rejected or clamped. -/
theorem process_3d_frame_no_reject_cex :
    (process_3d_frame grad640 .side_by_side_cross_eye 5).height = 480 ∧
    (process_3d_frame grad640 .side_by_side_cross_eye 5).width = 640 ∧
    (process_3d_frame grad640 .side_by_side_cross_eye 150).height = 480 ∧
    (process_3d_frame grad640 .side_by_side_cross_eye 150).width = 640 ∧
    (process_3d_frame grad640 .side_by_side_cross_eye 5).pix 240 100 0 = 147 ∧
    (process_3d_frame grad640 .side_by_side_cross_eye 10).pix 240 100 0 = 154 ∧
    (process_3d_frame grad640 .side_by_side_cross_eye 100).pix 240 100 0 = 25 ∧
    (process_3d_frame grad640 .side_by_side_cross_eye 150).pix 240 100 0 = 94 ∧
    (147 : ℕ) ≠ 154 ∧ (147 : ℕ) ≠ 25 ∧ (94 : ℕ) ≠ 154 ∧ (94 : ℕ) ≠ 25 := by
  decide

/-- C3 amended: the stereo transform performs no range validation of the
    offset: for every input frame, every mode and every offset value
    (in range or not) it produces an output frame of the input dimensions,
    computing with the offset exactly as given; the range [10, 100] is
    enforced only by the UI slider configuration. -/
theorem process_3d_frame_no_validation (frame : Image) (mode : Mode)
    (offset : ℕ) :
    (process_3d_frame frame mode offset).height = frame.height ∧
    (process_3d_frame frame mode offset).width = frame.width ∧
    offsetSliderMin = 10 ∧ offsetSliderMax = 100 := by
  cases mode <;> exact ⟨rfl, rfl, rfl, rfl⟩

/-- Under a monotone wall clock and a nonnegative frame rate, the raw target
    index is the floor of elapsed time times fps. -/
theorem recvTarget0_eq_floor (st : SideBySideVideoTrack) (t1 t2 : ℚ)
    (hfps : 0 ≤ st.fps) (hstart : recvStart st t1 ≤ t2) :
    recvTarget0 st t1 t2 = Int.floor ((t2 - recvStart st t1) * st.fps) :=
  pyInt_eq_floor _ (mul_nonneg (by linarith) hfps)

/-- Under the same conditions the raw target index is nonnegative. -/
theorem recvTarget0_nonneg (st : SideBySideVideoTrack) (t1 t2 : ℚ)
    (hfps : 0 ≤ st.fps) (hstart : recvStart st t1 ≤ t2) :
    0 ≤ recvTarget0 st t1 t2 := by
  rw [recvTarget0_eq_floor st t1 t2 hfps hstart]
  exact Int.floor_nonneg.mpr (mul_nonneg (by linarith) hfps)

/-- The post-loop target index is nonnegative under a monotone wall clock
    and a nonnegative frame rate. -/
theorem recvTarget_nonneg (st : SideBySideVideoTrack) (t1 t2 : ℚ)
    (hfps : 0 ≤ st.fps) (hstart : recvStart st t1 ≤ t2) :
    0 ≤ recvTarget st t1 t2 := by
  have h0 := recvTarget0_nonneg st t1 t2 hfps hstart
  unfold recvTarget
  split <;> omega

/-- The post-loop target index lies in [0, frame_count) for every valid
    asset. -/
theorem recvTarget_bounds (st : SideBySideVideoTrack) (t1 t2 : ℚ)
    (hvalid : 1 ≤ st.frame_count) (hfps : 0 ≤ st.fps)
    (hstart : recvStart st t1 ≤ t2) :
    0 ≤ recvTarget st t1 t2 ∧ recvTarget st t1 t2 < st.frame_count := by
  have h0 := recvTarget0_nonneg st t1 t2 hfps hstart
  unfold recvTarget recvLooped
  simp only [decide_eq_true_eq]
  by_cases hl : st.frame_count ≤ recvTarget0 st t1 t2
  · rw [if_pos hl]
    omega
  · rw [if_neg hl]
    omega

/-- C1: for every valid video asset (at least one frame, nonnegative frame
    rate) and every recv call under a monotone wall clock, the frame index
    used for seeking and decoding is nonnegative and strictly less than the
    total frame count, and the loop reset runs exactly when
    floor(elapsed * native_fps) reaches or exceeds the total frame count. -/
theorem recv_index_bound {α : Type} (st : SideBySideVideoTrack)
    (read : ℤ → Option α) (t1 t2 t3 : ℚ) (out : RecvOut α)
    (st2 : SideBySideVideoTrack)
    (hvalid : 1 ≤ st.frame_count) (hfps : 0 ≤ st.fps)
    (hstart : recvStart st t1 ≤ t2)
    (hok : st.recv read t1 t2 t3 = .ok (out, st2)) :
    0 ≤ out.decodedIndex ∧ out.decodedIndex < st.frame_count ∧
    0 ≤ out.targetIndex ∧ out.targetIndex < st.frame_count ∧
    (out.looped = true ↔
      st.frame_count ≤ Int.floor ((t2 - recvStart st t1) * st.fps)) := by
  obtain ⟨hti, hlo, hpts, htb, hst2, hnone, hsome⟩ :=
    recv_ok_fields st read t1 t2 t3 out st2 hok
  have htb2 := recvTarget_bounds st t1 t2 hvalid hfps hstart
  have hdec : 0 ≤ out.decodedIndex ∧ out.decodedIndex < st.frame_count := by
    cases h : read (recvTarget st t1 t2) with
    | none =>
      have h0 := hnone h
      omega
    | some f =>
      have h0 := (hsome f h).1
      omega
  refine ⟨hdec.1, hdec.2, ?_, ?_, ?_⟩
  · rw [hti]; exact htb2.1
  · rw [hti]; exact htb2.2
  · rw [hlo]
    unfold recvLooped
    rw [recvTarget0_eq_floor st t1 t2 hfps hstart]
    simp

/-- Witness for C1: fps 2, 3 frames, start recorded at 0, second pull at
    time 1 selects index 2, which is in range, and no loop occurs. -/
theorem recv_index_bound_witness :
    (0 : ℤ) ≤ 2 ∧ (2 : ℤ) < 3 ∧ (0 : ℤ) ≤ 2 ∧ (2 : ℤ) < 3 ∧
    (false = true ↔ (3 : ℤ) ≤
      Int.floor (((1 : ℚ) - recvStart ⟨2, 640, 480, 3, 1/2, some 0, 0⟩ 0) * 2)) :=
  recv_index_bound ⟨2, 640, 480, 3, 1/2, some 0, 0⟩ (fun _ => some (0 : ℕ))
    0 1 2 ⟨0, 90000, 1/90000, 2, 2, false⟩ ⟨2, 640, 480, 3, 1/2, some 0, 0⟩
    (by decide) (by norm_num) (by norm_num [recvStart])
    (by norm_num [SideBySideVideoTrack.recv, recvTarget, recvLooped,
      recvTarget0, recvStart, pyInt])

/-- C2 counterexample: with native fps 7 and selected index 5
    (start recorded at 0, pull at time 5/7), the emitted pts is
    int(5 * (1/7) * 90000) = 64285, the truncation of 450000/7, while
    round(5 / 7 * 90000) = 64286, so the pts is not the rounded value the
    claim states. -/
theorem recv_pts_not_round_cex :
    SideBySideVideoTrack.recv (α := ℕ) ⟨7, 640, 480, 10, 1/7, some 0, 0⟩
      (fun _ => some 0) 0 (5/7) 1 =
      .ok (⟨0, 64285, 1/90000, 5, 5, false⟩, ⟨7, 640, 480, 10, 1/7, some 0, 0⟩) ∧
    round ((5 : ℚ) / 7 * 90000) = 64286 ∧ (64285 : ℤ) ≠ 64286 := by
  refine ⟨?_, ?_, by decide⟩
  · norm_num [SideBySideVideoTrack.recv, recvTarget, recvLooped, recvTarget0,
      recvStart, pyInt]
  · norm_num [round_eq]

/-- C2 amended: for every frame emitted by recv, the presentation timestamp
    equals the truncation (floor, both factors being nonnegative) of
    target_index / native_fps * 90000 — not its rounding — and the time
    base is 1/90000 (a 90 kHz clock). -/
theorem recv_pts_formula {α : Type} (st : SideBySideVideoTrack)
    (read : ℤ → Option α) (t1 t2 t3 : ℚ) (out : RecvOut α)
    (st2 : SideBySideVideoTrack)
    (hdur : st.frame_duration = 1 / st.fps) (hfps : 0 < st.fps)
    (hstart : recvStart st t1 ≤ t2)
    (hok : st.recv read t1 t2 t3 = .ok (out, st2)) :
    out.pts = Int.floor ((out.targetIndex : ℚ) / st.fps * 90000) ∧
    out.time_base = 1 / 90000 := by
  obtain ⟨hti, hlo, hpts, htb, hst2, hnone, hsome⟩ :=
    recv_ok_fields st read t1 t2 t3 out st2 hok
  refine ⟨?_, htb⟩
  have ht0 : 0 ≤ recvTarget st t1 t2 :=
    recvTarget_nonneg st t1 t2 (le_of_lt hfps) hstart
  have hcast : (0 : ℚ) ≤ (recvTarget st t1 t2 : ℚ) := by exact_mod_cast ht0
  have hq : (0 : ℚ) ≤ (recvTarget st t1 t2 : ℚ) * (1 / st.fps) * 90000 := by
    have h1 : (0 : ℚ) ≤ 1 / st.fps := by positivity
    have h2 : (0 : ℚ) ≤ (recvTarget st t1 t2 : ℚ) * (1 / st.fps) :=
      mul_nonneg hcast h1
    linarith
  rw [hpts, hti, hdur, pyInt_eq_floor _ hq]
  congr 1
  ring

/-- Witness for C2 amended: fps 2, index 2, pts 90000 = floor(2/2*90000). -/
theorem recv_pts_formula_witness :
    (90000 : ℤ) = Int.floor (((2 : ℤ) : ℚ) / 2 * 90000) ∧
    (1 / 90000 : ℚ) = 1 / 90000 :=
  recv_pts_formula ⟨2, 640, 480, 3, 1/2, some 0, 0⟩ (fun _ => some (0 : ℕ))
    0 1 2 ⟨0, 90000, 1/90000, 2, 2, false⟩ ⟨2, 640, 480, 3, 1/2, some 0, 0⟩
    rfl (by norm_num) (by norm_num [recvStart])
    (by norm_num [SideBySideVideoTrack.recv, recvTarget, recvLooped,
      recvTarget0, recvStart, pyInt])

/-- C7 counterexample: a looping recv call (2 frames, fps 1, start 0, pull
    at time 5) leaves start_time = some 5 — the wall clock of the reset —
    not None as the claim states, and frame_index stays 0 because recv never
    writes it. -/
theorem recv_loop_state_cex :
    SideBySideVideoTrack.recv (α := ℕ) ⟨1, 640, 480, 2, 1, some 0, 0⟩
      (fun _ => some 0) 0 5 5 =
      .ok (⟨0, 0, 1/90000, 0, 0, true⟩, ⟨1, 640, 480, 2, 1, some 5, 0⟩) ∧
    some (5 : ℚ) ≠ none := by
  refine ⟨?_, by simp⟩
  norm_num [SideBySideVideoTrack.recv, recvTarget, recvLooped, recvTarget0,
    recvStart, pyInt]

/-- C7 amended: after every successful recv call the frame_index field is
    unchanged (it is never mutated after construction); when the call loops,
    start_time is set to the current wall clock (not None); when it does not
    loop, start_time keeps the start of the cycle; a decode failure at the
    target index makes the call decode index 0 instead, but the looped
    outcome is still decided solely by the pacing condition, so a decode
    failure is not treated as a loop and does not reset the pacing state. -/
theorem recv_state_update {α : Type} (st : SideBySideVideoTrack)
    (read : ℤ → Option α) (t1 t2 t3 : ℚ) (out : RecvOut α)
    (st2 : SideBySideVideoTrack)
    (hok : st.recv read t1 t2 t3 = .ok (out, st2)) :
    st2.frame_index = st.frame_index ∧
    (out.looped = true → st2.start_time = some t3) ∧
    (out.looped = false → st2.start_time = some (recvStart st t1)) ∧
    (read out.targetIndex = none → out.decodedIndex = 0) ∧
    out.looped = recvLooped st t1 t2 := by
  obtain ⟨hti, hlo, hpts, htb, hst2, hnone, hsome⟩ :=
    recv_ok_fields st read t1 t2 t3 out st2 hok
  subst hst2
  refine ⟨rfl, ?_, ?_, ?_, hlo⟩
  · intro h
    rw [hlo] at h
    simp [h]
  · intro h
    rw [hlo] at h
    simp [h]
  · intro h
    rw [hti] at h
    exact hnone h

/-- Witness for C7 amended: a non-looping call whose decode fails at the
    target index 3 and falls back to index 0, leaving the pacing state
    untouched. -/
theorem recv_state_update_witness :
    (0 : ℕ) = 0 ∧
    (false = true → some (0 : ℚ) = some 4) ∧
    (false = false →
      some (0 : ℚ) = some (recvStart ⟨1, 640, 480, 10, 1, some 0, 0⟩ 0)) ∧
    ((if (3 : ℤ) = 0 then some (7 : ℕ) else none) = none → (0 : ℤ) = 0) ∧
    false = recvLooped ⟨1, 640, 480, 10, 1, some 0, 0⟩ 0 3 :=
  recv_state_update ⟨1, 640, 480, 10, 1, some 0, 0⟩
    (fun i => if i = 0 then some (7 : ℕ) else none) 0 3 4
    ⟨7, 270000, 1/90000, 0, 3, false⟩ ⟨1, 640, 480, 10, 1, some 0, 0⟩
    (by norm_num [SideBySideVideoTrack.recv, recvTarget, recvLooped,
      recvTarget0, recvStart, pyInt])

/-- C10: when decoding the paced target index fails (with a positive target,
    i.e. a non-looping call) and the source falls back to decoding index 0,
    the emitted frame carries the pts computed from the original failed
    target index — which is positive, hence different from the pts of the
    frame actually decoded (index 0) — the call is not marked as looped, and
    the pacing state keeps its cycle start. -/
theorem recv_fallback_keeps_pts {α : Type} (st : SideBySideVideoTrack)
    (read : ℤ → Option α) (t1 t2 t3 : ℚ) (out : RecvOut α)
    (st2 : SideBySideVideoTrack)
    (hdur : st.frame_duration = 1 / st.fps)
    (hfps : 0 < st.fps) (hfhi : st.fps ≤ 90000)
    (hstart : recvStart st t1 ≤ t2)
    (hok : st.recv read t1 t2 t3 = .ok (out, st2))
    (hfail : read (recvTarget st t1 t2) = none)
    (hpos : 1 ≤ recvTarget st t1 t2) :
    out.decodedIndex = 0 ∧
    out.targetIndex = recvTarget st t1 t2 ∧
    out.pts = pyInt ((recvTarget st t1 t2 : ℚ) * st.frame_duration * 90000) ∧
    out.pts ≠ pyInt ((0 : ℚ) * st.frame_duration * 90000) ∧
    out.looped = false ∧
    st2.start_time = some (recvStart st t1) ∧
    st2.frame_index = st.frame_index := by
  obtain ⟨hti, hlo, hpts, htb, hst2, hnone, hsome⟩ :=
    recv_ok_fields st read t1 t2 t3 out st2 hok
  have hnl : recvLooped st t1 t2 = false := by
    by_contra hb
    have hb2 : recvLooped st t1 t2 = true := by
      cases h : recvLooped st t1 t2
      · exact absurd h hb
      · rfl
    have : recvTarget st t1 t2 = 0 := by
      unfold recvTarget
      rw [hb2]
      rfl
    omega
  have hfpos : (0 : ℚ) < st.fps := hfps
  have hcast : (1 : ℚ) ≤ (recvTarget st t1 t2 : ℚ) := by exact_mod_cast hpos
  have hinv : (0 : ℚ) < 1 / st.fps := by positivity
  have hone : (1 : ℚ) ≤ (1 / st.fps) * 90000 := by
    rw [one_div, inv_mul_eq_div, le_div_iff hfpos]
    linarith
  have hqge : (1 : ℚ) ≤ (recvTarget st t1 t2 : ℚ) * st.frame_duration * 90000 := by
    rw [hdur, mul_assoc]
    calc (1 : ℚ) ≤ (1 / st.fps) * 90000 := hone
    _ ≤ (recvTarget st t1 t2 : ℚ) * ((1 / st.fps) * 90000) := by
        nlinarith
  have hq0 : (0 : ℚ) ≤ (recvTarget st t1 t2 : ℚ) * st.frame_duration * 90000 := by
    linarith
  have hptspos : 1 ≤ out.pts := by
    rw [hpts, pyInt_eq_floor _ hq0]
    exact Int.le_floor.mpr (by exact_mod_cast hqge)
  have hzero : pyInt ((0 : ℚ) * st.frame_duration * 90000) = 0 := by
    norm_num [pyInt]
  refine ⟨hnone hfail, hti, hpts, ?_, ?_, ?_, ?_⟩
  · rw [hzero]
    omega
  · rw [hlo, hnl]
  · rw [hst2]
    simp [hnl]
  · rw [hst2]

/-- Witness for C10: fps 30, pull at time 1/6 selects index 5, decode fails
    there, falls back to index 0, but pts stays 15000 = int(5/30*90000). -/
theorem recv_fallback_keeps_pts_witness :
    (0 : ℤ) = 0 ∧
    (5 : ℤ) = recvTarget ⟨30, 640, 480, 900, 1/30, some 0, 0⟩ 0 (1/6) ∧
    (15000 : ℤ) =
      pyInt ((recvTarget ⟨30, 640, 480, 900, 1/30, some 0, 0⟩ 0 (1/6) : ℚ) *
        (1/30) * 90000) ∧
    (15000 : ℤ) ≠ pyInt ((0 : ℚ) * (1/30) * 90000) ∧
    false = false ∧
    some (0 : ℚ) = some (recvStart ⟨30, 640, 480, 900, 1/30, some 0, 0⟩ 0) ∧
    (0 : ℕ) = 0 :=
  recv_fallback_keeps_pts ⟨30, 640, 480, 900, 1/30, some 0, 0⟩
    (fun i => if i = 0 then some (7 : ℕ) else none) 0 (1/6) 1
    ⟨7, 15000, 1/90000, 0, 5, false⟩ ⟨30, 640, 480, 900, 1/30, some 0, 0⟩
    rfl (by norm_num) (by norm_num) (by norm_num [recvStart])
    (by norm_num [SideBySideVideoTrack.recv, recvTarget, recvLooped,
      recvTarget0, recvStart, pyInt])
    (by norm_num [recvTarget, recvLooped, recvTarget0, recvStart, pyInt])
    (by norm_num [recvTarget, recvLooped, recvTarget0, recvStart, pyInt])

/-- C9 counterexample: constructing the track from an opened capture whose
    reported fps is 0 fails with a ZeroDivisionError raised by the unguarded
    float division frame_duration = 1.0 / fps — precisely the division fault
    the claim says never happens — and not with an InvalidAssetError, which
    does not exist in the code (the only guarded failure is the ValueError
    for a capture that cannot be opened). -/
theorem init_zero_fps_cex :
    SideBySideVideoTrack.init true "video.mp4" 0 640 480 100 =
      .error .zeroDivisionError ∧
    SideBySideVideoTrack.init false "video.mp4" 0 640 480 100 =
      .error (.valueError ("Could not open video file: video.mp4")) := by
  constructor
  · norm_num [SideBySideVideoTrack.init]
  · rfl

/-- C9 amended: a zero native frame rate makes construction fail with the
    ZeroDivisionError of the unguarded division 1.0 / fps rather than with a
    dedicated InvalidAssetError; consequently every successfully constructed
    track has a nonzero fps and carries the precomputed
    frame_duration = 1 / fps, so the pacing code performs no division at
    all. -/
theorem init_division_guard (opened : Bool) (video_path : String) (fps : ℚ)
    (w h count : ℤ) :
    (opened = true → fps = 0 →
      SideBySideVideoTrack.init opened video_path fps w h count =
        .error .zeroDivisionError) ∧
    (∀ st : SideBySideVideoTrack,
      SideBySideVideoTrack.init opened video_path fps w h count = .ok st →
      fps ≠ 0 ∧ st.fps = fps ∧ st.frame_duration = 1 / fps ∧
      st.frame_count = count ∧ st.start_time = none ∧ st.frame_index = 0) := by
  constructor
  · intro hop hf
    simp [SideBySideVideoTrack.init, hop, hf]
  · intro st hok
    unfold SideBySideVideoTrack.init at hok
    by_cases hop : opened
    · rw [if_neg (by simpa using hop)] at hok
      by_cases hf : fps = 0
      · rw [if_pos hf] at hok
        exact absurd hok (by simp)
      · rw [if_neg hf] at hok
        simp only [Except.ok.injEq] at hok
        subst hok
        exact ⟨hf, rfl, rfl, rfl, rfl, rfl⟩
    · rw [if_pos (by simpa using hop)] at hok
      exact absurd hok (by simp)

/-- Witness for C9 amended at a 30 fps asset. -/
theorem init_division_guard_witness :
    (30 : ℚ) ≠ 0 ∧ (30 : ℚ) = 30 ∧ (1 / 30 : ℚ) = 1 / 30 ∧
    (100 : ℤ) = 100 ∧ (none : Option ℚ) = none ∧ (0 : ℕ) = 0 :=
  (init_division_guard true "video.mp4" 30 640 480 100).2
    ⟨30, 640, 480, 100, 1/30, none, 0⟩
    (by norm_num [SideBySideVideoTrack.init])

/-- C8 counterexample: a POST /offer body lacking the sdp field yields
    status 500 whose body is the plain-text error message served with
    content type text/plain — not a JSON body carrying an error field as the
    claim states (the handler returns web.Response(status=500,
    text=str(e))). -/
theorem offer_error_not_json_cex :
    (offer_handler id ⟨none, some "offer"⟩ ⟨none⟩).1.status = 500 ∧
    (offer_handler id ⟨none, some "offer"⟩ ⟨none⟩).1.contentType =
      "text/plain" ∧
    (offer_handler id ⟨none, some "offer"⟩ ⟨none⟩).1.body.isJson = false ∧
    "text/plain" ≠ "application/json" := by
  exact ⟨rfl, rfl, rfl, by decide⟩

/-- C8 amended: a POST /offer request whose body lacks the sdp field
    returns HTTP status 500 with the error message as a plain-text body
    (not JSON), leaves the session state unchanged (hence never
    half-initialized), and a subsequent POST /offer with a valid body
    succeeds with a 200 JSON response carrying the sdp and
    type = answer fields. -/
theorem offer_missing_sdp (answerOf : String → String) (body : OfferBody)
    (st : PublisherState) (sdp2 ty2 : String)
    (hmiss : body.sdp = none) :
    (offer_handler answerOf body st).1.status = 500 ∧
    (offer_handler answerOf body st).1.body =
      .plain ("Missing required SDP parameters") ∧
    (offer_handler answerOf body st).2 = st ∧
    (offer_handler answerOf ⟨some sdp2, some ty2⟩
      (offer_handler answerOf body st).2).1.status = 200 ∧
    (offer_handler answerOf ⟨some sdp2, some ty2⟩
      (offer_handler answerOf body st).2).1.contentType =
      "application/json" ∧
    (offer_handler answerOf ⟨some sdp2, some ty2⟩
      (offer_handler answerOf body st).2).1.body =
      .json [("sdp", answerOf sdp2), ("type", "answer")] := by
  cases body with
  | mk bs bt =>
    simp only at hmiss
    subst hmiss
    cases bt <;> exact ⟨rfl, rfl, rfl, rfl, rfl, rfl⟩

/-- Witness for C8 amended: an empty body followed by a valid offer. -/
theorem offer_missing_sdp_witness :
    (offer_handler id ⟨none, none⟩ ⟨none⟩).1.status = 500 ∧
    (offer_handler id ⟨none, none⟩ ⟨none⟩).1.body =
      .plain ("Missing required SDP parameters") ∧
    (offer_handler id ⟨none, none⟩ ⟨none⟩).2 = ⟨none⟩ ∧
    (offer_handler id ⟨some "sdpA", some "offer"⟩
      (offer_handler id ⟨none, none⟩ ⟨none⟩).2).1.status = 200 ∧
    (offer_handler id ⟨some "sdpA", some "offer"⟩
      (offer_handler id ⟨none, none⟩ ⟨none⟩).2).1.contentType =
      "application/json" ∧
    (offer_handler id ⟨some "sdpA", some "offer"⟩
      (offer_handler id ⟨none, none⟩ ⟨none⟩).2).1.body =
      .json [("sdp", id "sdpA"), ("type", "answer")] :=
  offer_missing_sdp id ⟨none, none⟩ ⟨none⟩ "sdpA" "offer" rfl

end Streaming3D
